import Mathlib

set_option maxHeartbeats 1000000

/- Shallow embedding of the beltpack-client firmware (src/main.rs):
   the validated value types (Percent, the diagnostic Error code, the
   error banner of handle_error) and the runtime control loop of main. -/

/-- Outcome of a fallible Rust computation: success, a recoverable error
value (Result Err), or a process-aborting panic (e.g. from unwrap). -/
inductive RustResult (ε α : Type) where
  | ok : α → RustResult ε α
  | err : ε → RustResult ε α
  | panicked : String → RustResult ε α
  deriving DecidableEq

/-- Rust u8 FromStr semantics (as invoked by value.parse in Percent::new):
an optional leading plus sign, then one or more ASCII decimal digits whose
value fits in 0..=255; anything else is a parse error (none). -/
def parseU8 (s : List Char) : Option Nat :=
  let t := match s with
    | '+' :: rest => rest
    | _ => s
  if t.isEmpty then none
  else if t.all Char.isDigit then
    let v := t.foldl (fun acc c => acc * 10 + (c.toNat - 48)) 0
    if v ≤ 255 then some v else none
  else none

/-- struct Percent(u8) from src/main.rs. -/
structure Percent where
  val : Nat
  deriving DecidableEq

/-- Percent::new (src/main.rs lines 76-83): value.parse::<u8>().unwrap()
(a parse failure panics), then Ok if the value is at most 100, else
Err with the message Invalid Input. -/
def Percent.new (value : String) : RustResult String Percent :=
  match parseU8 value.data with
  | none => .panicked ("parse failure")
  | some v => if v ≤ 100 then .ok ⟨v⟩ else .err ("Invalid Input")

/-- Display for Percent (src/main.rs lines 86-90): plain decimal. -/
def Percent.display (p : Percent) : String := Nat.repr p.val

/-- handle_error (src/main.rs lines 130-169): Ok draws nothing; Err paints
the inverted bottom banner whose text is the literal prefix EPRROR-colon-space
concatenated with the error's description. Modelled as the banner text drawn. -/
def handle_error (result : Except String Unit) : Option String :=
  match result with
  | .ok _ => none
  | .error err => some ("EPRROR: " ++ err)

/-- Rust char::to_digit(radix): ASCII digits then letters (case folded),
valid when the digit value is below the radix. -/
def charToDigit (c : Char) (radix : Nat) : Option Nat :=
  let d :=
    if '0' ≤ c ∧ c ≤ '9' then some (c.toNat - 48)
    else if 'a' ≤ c ∧ c ≤ 'z' then some (c.toNat - 97 + 10)
    else if 'A' ≤ c ∧ c ≤ 'Z' then some (c.toNat - 65 + 10)
    else none
  match d with
  | some v => if v < radix then some v else none
  | none => none

/-- UTF-8 byte length of a Rust string, as str::len computes it. -/
def rustByteLen (s : List Char) : Nat := (s.map Char.utf8Size).sum

/-- Rust byte slicing value[..k] / value[k..]: splits the character list at
byte index k; none models the char-boundary (or out of range) panic. -/
def splitAtByte : Nat → List Char → Option (List Char × List Char)
  | 0, cs => some ([], cs)
  | _ + 1, [] => none
  | k + 1, c :: rest =>
    if c.utf8Size ≤ k + 1 then
      match splitAtByte (k + 1 - c.utf8Size) rest with
      | some (a, b) => some (c :: a, b)
      | none => none
    else none

/-- Rust u8::from_str_radix: optional plus sign, then digits of the given
radix, value fitting in 0..=255. -/
def fromStrRadixU8 (s : List Char) (radix : Nat) : Option Nat :=
  let t := match s with
    | '+' :: rest => rest
    | _ => s
  if t.isEmpty then none
  else if t.all (fun c => (charToDigit c radix).isSome) then
    let v := t.foldl (fun acc c => acc * radix + (charToDigit c radix).getD 0) 0
    if v ≤ 255 then some v else none
  else none

/-- struct Error(u8) from src/main.rs: the packed diagnostic code. -/
structure Error where
  val : Nat
  deriving DecidableEq

/-- Error::new (src/main.rs lines 96-107): when the byte length is 4, drop
the byte at index 2 (value[..2] + value[3..], each slice panicking on a char
boundary violation), require every remaining character to be a base-6 digit,
and parse the result as base 6 (that unwrap cannot fail on 3 base-6 digits);
otherwise Err Invalid input. -/
def Error.new (value : String) : RustResult String Error :=
  if rustByteLen value.data = 4 then
    match splitAtByte 2 value.data with
    | none => .panicked ("byte index 2 is not a char boundary")
    | some (pre, _) =>
      match splitAtByte 3 value.data with
      | none => .panicked ("byte index 3 is not a char boundary")
      | some (_, suf) =>
        let modified := pre ++ suf
        if modified.all (fun c => (charToDigit c 6).isSome) then
          match fromStrRadixU8 modified 6 with
          | some v => .ok ⟨v⟩
          | none => .panicked ("from_str_radix unwrap")
        else .err ("Invalid input")
  else .err ("Invalid input")

/-- Loop of Error's Display impl with explicit fuel: push n % 6, divide by 6,
stop when the quotient is 0. The quotient strictly decreases, so fuel n is
always enough and the fuel-exhausted arm is unreachable. -/
def base6LsbAux : Nat → Nat → List Nat
  | 0, n => [n % 6]
  | fuel + 1, n => if n / 6 = 0 then [n % 6] else (n % 6) :: base6LsbAux fuel (n / 6)

/-- Base-6 digits of n, least significant first; the loop of Error's Display
impl (src/main.rs lines 110-128) before the reverse. Always at least one digit. -/
def base6Lsb (n : Nat) : List Nat := base6LsbAux n n

/-- Display for Error (src/main.rs lines 110-128): base-6 digits most
significant first, truncated to the first two characters. -/
def Error.display (e : Error) : String :=
  String.mk (((base6Lsb e.val).reverse.map (fun d => Char.ofNat (48 + d))).take 2)

/- ----- the control loop of main (src/main.rs lines 171-284) ----- -/

/-- The three validated operator names loaded from config.ini before the
loop starts (src/main.rs lines 177-182). -/
structure BootConfig where
  current_user : String
  target_user_1 : String
  target_user_2 : String
  deriving DecidableEq

/-- One call to name_display: which string is drawn in the centre of the
screen and whether the TALK TO indicator is drawn. -/
structure NameRender where
  name : String
  talking : Bool
  deriving DecidableEq

/-- The loop's mutable locals: counter (refresh cadence) and secs
(power-hold elapsed ticks), src/main.rs lines 232-233. -/
structure LoopState where
  counter : Nat
  secs : Nat
  deriving DecidableEq

/-- Input levels sampled in one tick, plus the string the environment
provider would return if the signal percentage is queried this tick. -/
structure TickInput where
  power : Bool
  ptt1 : Bool
  ptt2 : Bool
  percentStr : String
  deriving DecidableEq

/-- Observable render actions of one tick: the shutdown-countdown screen,
the full-screen clear on countdown abort, the name screen drawn, and whether
the environment (signal percent and IP) was queried and redrawn. -/
structure TickObs where
  powerScreen : Bool
  cleared : Bool
  nameShown : Option NameRender
  refreshed : Bool
  deriving DecidableEq

/-- Result of one loop iteration: break out of the loop, abort the process
(a panic), or continue with the new state and this tick's renders. -/
inductive TickResult where
  | exit : TickResult
  | panicked : String → TickResult
  | cont : LoopState → TickObs → TickResult
  deriving DecidableEq

/-- The name screen drawn once before the loop starts (src/main.rs line 227):
name_display with target_user_1 and talking = false. -/
def bootNameRender (cfg : BootConfig) : NameRender := ⟨cfg.target_user_1, false⟩

/-- counter = 0 and secs = 0 on entry to the loop (src/main.rs lines 232-233). -/
def initState : LoopState := ⟨0, 0⟩

/-- One iteration of the loop body (src/main.rs lines 235-282).
Power held: draw the countdown, break once secs has reached 10, else
increment secs and continue (skipping the rest of the body).
Power released with a nonzero secs: reset secs, clear the screen, force
counter to 10. Then the PTT priority chain draws the name screen, and the
refresh gate (counter = 10 or secs nonzero) queries the provider and unwraps
Percent::new - an Err or parse failure there aborts the process. -/
def tick (cfg : BootConfig) (st : LoopState) (inp : TickInput) : TickResult :=
  if inp.power then
    if 10 ≤ st.secs then .exit
    else .cont ⟨st.counter, st.secs + 1⟩ ⟨true, false, none, false⟩
  else
    let aborted := st.secs != 0
    let secs1 := if aborted then 0 else st.secs
    let counter1 := if aborted then 10 else st.counter
    let nm : NameRender :=
      if inp.ptt1 then ⟨cfg.target_user_1, true⟩
      else if inp.ptt2 then ⟨cfg.target_user_2, true⟩
      else ⟨cfg.current_user, false⟩
    if counter1 = 10 ∨ secs1 ≠ 0 then
      match Percent.new inp.percentStr with
      | .ok _ => .cont ⟨0 + 1, secs1⟩ ⟨false, aborted, some nm, true⟩
      | .err e => .panicked e
      | .panicked m => .panicked m
    else
      .cont ⟨counter1 + 1, secs1⟩ ⟨false, aborted, some nm, false⟩

/-- Outcome of running the loop over a finite list of tick inputs. -/
inductive RunResult where
  | running : LoopState → RunResult
  | exited : RunResult
  | panicked : RunResult
  deriving DecidableEq

/-- Run the loop from a state through a list of tick inputs. -/
def run (cfg : BootConfig) : LoopState → List TickInput → RunResult
  | st, [] => .running st
  | st, inp :: rest =>
    match tick cfg st inp with
    | .exit => .exited
    | .panicked _ => .panicked
    | .cont st2 _ => run cfg st2 rest

/-- A tick with no line asserted and the provider answering 50. -/
def idleInput : TickInput := ⟨false, false, false, "50"⟩

/-- A tick with the power line held and the provider answering 50. -/
def powerOn : TickInput := ⟨true, false, false, "50"⟩

/-- State before tick n+1 of the all-idle run (no line ever asserted). -/
def idleStateAt (cfg : BootConfig) : Nat → LoopState
  | 0 => initState
  | n + 1 =>
    match tick cfg (idleStateAt cfg n) idleInput with
    | .cont st _ => st
    | _ => initState

/-- Result of tick t (1-indexed) of the all-idle run. -/
def idleTickResult (cfg : BootConfig) (t : Nat) : TickResult :=
  tick cfg (idleStateAt cfg (t - 1)) idleInput

/-- Whether tick t of the all-idle run queried the environment provider. -/
def idleRefreshedAt (cfg : BootConfig) (t : Nat) : Bool :=
  match idleTickResult cfg t with
  | .cont _ obs => obs.refreshed
  | _ => false

/-- Whether a tick result continues the loop. -/
def TickResult.isCont : TickResult → Bool
  | .cont _ _ => true
  | _ => false

/-- A concrete configuration used in closed statements. -/
def sampleCfg : BootConfig := ⟨"OP", "T1", "T2"⟩

/- ----- helper lemmas for the all-idle run ----- -/

/-- Evaluation of one idle tick from a state with secs 0: the name screen
shows the device's own name, and the environment is refreshed exactly when
the counter has reached 10 (after which the counter restarts at 1). -/
theorem tick_idle_eval (cfg : BootConfig) (k : Nat) :
    tick cfg ⟨k, 0⟩ idleInput =
      if k = 10 then .cont ⟨1, 0⟩ ⟨false, false, some ⟨cfg.current_user, false⟩, true⟩
      else .cont ⟨k + 1, 0⟩ ⟨false, false, some ⟨cfg.current_user, false⟩, false⟩ := by
  have h50 : Percent.new ("50") = .ok ⟨50⟩ := by decide
  by_cases hk : k = 10 <;> simp [tick, idleInput, hk, h50]

/-- In the all-idle run the counter before tick n+2 is n % 10 + 1 and secs
stays 0 (before tick 1 it is 0): counter walks 0,1,...,10 then cycles 1..10. -/
theorem idleStateAt_succ (cfg : BootConfig) (n : Nat) :
    idleStateAt cfg (n + 1) = ⟨n % 10 + 1, 0⟩ := by
  induction n with
  | zero =>
      have h := tick_idle_eval cfg 0
      rw [if_neg (by omega)] at h
      simp [idleStateAt, initState, h]
  | succ m ih =>
      have hstep : idleStateAt cfg (m + 1 + 1) =
          (match tick cfg (idleStateAt cfg (m + 1)) idleInput with
           | .cont st _ => st
           | _ => initState) := rfl
      have h := tick_idle_eval cfg (m % 10 + 1)
      by_cases hm : m % 10 + 1 = 10
      · rw [if_pos hm] at h
        have h2 : (m + 1) % 10 = 0 := by omega
        rw [hstep, ih, h]
        simp [h2]
      · rw [if_neg hm] at h
        have h2 : (m + 1) % 10 = m % 10 + 1 := by omega
        rw [hstep, ih, h]
        simp [h2]

/- ----- claims ----- -/

/-- Claim C1 (code bug): the spec says an InvalidInput failure from the
periodic refresh is caught and shown on the banner while the loop continues;
the code instead unwraps the Percent constructor's result inside the loop,
so on a refresh tick (counter at 10) where the provider yields 150 the
process aborts by panic, and handle_error is never invoked by the loop. -/
theorem c1_refresh_invalid_percent_panics :
    Percent.new ("150") = .err ("Invalid Input") ∧
    tick sampleCfg ⟨10, 0⟩ ⟨false, false, false, "150"⟩ = .panicked ("Invalid Input") := by
  decide

/-- Claim C2 counterexample: after 10 consecutive power-on ticks from the
initial state the loop has not terminated (it is still running with secs 10),
refuting termination on the 10th tick. -/
theorem c2_ten_ticks_still_running :
    run sampleCfg initState (List.replicate 10 powerOn) = .running ⟨0, 10⟩ ∧
    run sampleCfg initState (List.replicate 10 powerOn) ≠ .exited := by
  decide

/-- Claim C2 (amended): holding the power line from the initial state
terminates the loop on the 11th consecutive tick (secs reaches 10 only
then), and the power branch with secs at least 10 is the only way any tick
can exit the loop. -/
theorem c2_power_off_on_eleventh_tick :
    (∀ cfg : BootConfig, run cfg initState (List.replicate 11 powerOn) = .exited) ∧
    (∀ (cfg : BootConfig) (st : LoopState) (inp : TickInput),
      tick cfg st inp = .exit → inp.power = true ∧ 10 ≤ st.secs) := by
  refine ⟨fun cfg => rfl, ?_⟩
  intro cfg st inp h
  obtain ⟨pw, p1, p2, q⟩ := inp
  obtain ⟨c, s⟩ := st
  cases pw with
  | true =>
      by_cases hs : 10 ≤ s
      · exact ⟨rfl, hs⟩
      · simp [tick, hs] at h
  | false =>
      exfalso
      by_cases hs0 : s = 0
      · subst hs0
        by_cases hc : c = 10 <;>
          cases hq : Percent.new q <;>
            simp [tick, hc, hq] at h
      · cases hq : Percent.new q <;>
          simp [tick, hs0, hq] at h

/-- Claim C2 witness: the exit characterization applied at a concrete
exiting tick. -/
theorem c2_power_off_on_eleventh_tick_witness :
    powerOn.power = true ∧ 10 ≤ (LoopState.mk 0 10).secs :=
  c2_power_off_on_eleventh_tick.2 sampleCfg ⟨0, 10⟩ powerOn (by decide)

/-- Claim C3 counterexample: with a configuration whose own name differs
from target 1's, the name screen drawn before the loop shows target 1's
name, not the device's own name. -/
theorem c3_first_screen_not_current :
    bootNameRender sampleCfg = ⟨"T1", false⟩ ∧
    bootNameRender sampleCfg ≠ ⟨sampleCfg.current_user, false⟩ := by
  decide

/-- Claim C3 (amended): the first name screen, rendered before any input is
sampled, shows target 1's operator name without the talking indicator; the
device's own name is first shown by the loop's idle branch on tick 1. -/
theorem c3_first_screen_shows_target1 (cfg : BootConfig) :
    bootNameRender cfg = ⟨cfg.target_user_1, false⟩ ∧
    tick cfg initState idleInput =
      .cont ⟨1, 0⟩ ⟨false, false, some ⟨cfg.current_user, false⟩, false⟩ :=
  ⟨rfl, rfl⟩

/-- Claim C4 counterexample: the banner painted for the description Invalid
Input reads EPRROR-prefixed, not ERROR-prefixed as the spec states. -/
theorem c4_banner_text_not_error :
    handle_error (Except.error ("Invalid Input")) = some ("EPRROR: Invalid Input") ∧
    handle_error (Except.error ("Invalid Input")) ≠ some ("ERROR: " ++ "Invalid Input") := by
  decide

/-- Claim C4 (amended): every failure routed through the error-display path
paints the literal text EPRROR-colon-space followed by the failure's
description, and a success paints no banner. -/
theorem c4_banner_text (e : String) :
    handle_error (Except.error e) = some ("EPRROR: " ++ e) ∧
    handle_error (Except.ok ()) = none :=
  ⟨rfl, rfl⟩

/-- Claim C5 counterexample: the decimal string 256 denotes an integer of
101 or above, yet the constructor panics on it instead of failing with an
InvalidInput error. -/
theorem c5_256_panics_not_invalid_input :
    Percent.new ("256") = .panicked ("parse failure") ∧
    Percent.new ("256") ≠ .err ("Invalid Input") := by
  decide

set_option maxRecDepth 10000 in
/-- Claim C5 (amended): for every integer 0-100 in canonical decimal the
constructor succeeds and display round-trips to the same string; for
101-255 it fails with the InvalidInput error (for 256 and above it panics
in the parse step instead of returning an error). -/
theorem c5_percent_roundtrip : ∀ n : Nat, n < 256 →
    ((n ≤ 100 → Percent.new (Nat.repr n) = .ok ⟨n⟩ ∧ Percent.display ⟨n⟩ = Nat.repr n) ∧
     (101 ≤ n → Percent.new (Nat.repr n) = .err ("Invalid Input"))) := by
  decide

/-- Claim C5 witness: the round trip at 42 and the error at 150, through the
theorem itself. -/
theorem c5_percent_roundtrip_witness :
    (Percent.new (Nat.repr 42) = .ok ⟨42⟩ ∧ Percent.display ⟨42⟩ = Nat.repr 42) ∧
    Percent.new (Nat.repr 150) = .err ("Invalid Input") :=
  ⟨(c5_percent_roundtrip 42 (by decide)).1 (by decide),
   (c5_percent_roundtrip 150 (by decide)).2 (by decide)⟩

/-- Claim C6: constructing the diagnostic code from the string 12-3 yields
the byte 51 (1 times 36 plus 2 times 6 plus 3), and displaying the code
holding 51 produces the truncated two-character string 12, so encode
followed by display is not a round trip. -/
theorem c6_diag_encode_display_not_roundtrip :
    Error.new ("12-3") = .ok ⟨51⟩ ∧ Error.display ⟨51⟩ = "12" ∧ ("12" : String) ≠ "123" := by
  decide

/-- Claim C7 counterexample: a 3-character input whose UTF-8 byte length is
4 makes the constructor panic on a char-boundary violation instead of
failing with an error, refuting failure-with-error for every input whose
length is not 4 characters. -/
theorem c7_three_char_input_panics :
    ("aé3" : String).length = 3 ∧
    Error.new ("aé3") = .panicked ("byte index 2 is not a char boundary") := by
  decide

/-- Claim C7 (amended): the constructor succeeds on 12-3, fails with an
error on 12-6, and fails with an error on every input whose length is not
exactly 4 bytes (for ASCII input, bytes coincide with characters; 4-byte
inputs holding a multi-byte character can panic instead). -/
theorem c7_diag_code_validation :
    Error.new ("12-3") = .ok ⟨51⟩ ∧
    Error.new ("12-6") = .err ("Invalid input") ∧
    ∀ s : String, rustByteLen s.data ≠ 4 → Error.new s = .err ("Invalid input") := by
  refine ⟨by decide, by decide, ?_⟩
  intro s h
  simp [Error.new, h]

/-- Claim C7 witness: the length check applied to a 3-byte input. -/
theorem c7_diag_code_validation_witness :
    rustByteLen ("123" : String).data ≠ 4 ∧ Error.new ("123") = .err ("Invalid input") :=
  ⟨by decide, c7_diag_code_validation.2.2 ("123") (by decide)⟩

/-- Claim C8: in the all-idle run (power and both PTT lines never asserted)
the environment provider is queried on tick t exactly when t is 11, 21, 31,
and so on - exactly once per 10 ticks and never more often - and every such
tick continues the loop. -/
theorem c8_refresh_cadence (cfg : BootConfig) (t : Nat) (ht : 1 ≤ t) :
    ((idleRefreshedAt cfg t = true) ↔ (t % 10 = 1 ∧ 11 ≤ t)) ∧
    (idleTickResult cfg t).isCont = true := by
  obtain ⟨m, rfl⟩ : ∃ m, t = m + 1 := ⟨t - 1, by omega⟩
  cases m with
  | zero =>
      have h := tick_idle_eval cfg 0
      rw [if_neg (by omega)] at h
      have hr : idleTickResult cfg 1 =
          .cont ⟨1, 0⟩ ⟨false, false, some ⟨cfg.current_user, false⟩, false⟩ := h
      constructor
      · rw [idleRefreshedAt, hr]
        simp
      · rw [idleTickResult] at hr ⊢
        rw [hr]
        rfl
  | succ n =>
      have hr : idleTickResult cfg (n + 1 + 1) = tick cfg ⟨n % 10 + 1, 0⟩ idleInput := by
        show tick cfg (idleStateAt cfg (n + 1)) idleInput = _
        rw [idleStateAt_succ]
      have h := tick_idle_eval cfg (n % 10 + 1)
      by_cases hn : n % 10 + 1 = 10
      · rw [if_pos hn] at h
        rw [h] at hr
        constructor
        · rw [idleRefreshedAt, hr]
          simp
          omega
        · rw [hr]
          rfl
      · rw [if_neg hn] at h
        rw [h] at hr
        constructor
        · rw [idleRefreshedAt, hr]
          simp
          omega
        · rw [hr]
          rfl

/-- Claim C8 witness: the cadence characterization at tick 11. -/
theorem c8_refresh_cadence_witness :
    ((idleRefreshedAt sampleCfg 11 = true) ↔ (11 % 10 = 1 ∧ 11 ≤ 11)) ∧
    (idleTickResult sampleCfg 11).isCont = true :=
  c8_refresh_cadence sampleCfg 11 (by decide)

/-- Claim C9: after 9 consecutive power-on ticks from the initial state the
loop is still running with secs 9 and counter 0; and from any state with
secs 9 - whatever the refresh counter holds - a tick with the power line
released aborts the countdown: secs resets to 0, the screen is cleared, the
idle name screen (device's own name, no indicator) is drawn, and the
environment refresh fires on that very tick. -/
theorem c9_abort_forces_refresh :
    (∀ cfg : BootConfig, run cfg initState (List.replicate 9 powerOn) = .running ⟨0, 9⟩) ∧
    (∀ (cfg : BootConfig) (c : Nat),
      tick cfg ⟨c, 9⟩ idleInput =
        .cont ⟨1, 0⟩ ⟨false, true, some ⟨cfg.current_user, false⟩, true⟩) :=
  ⟨fun _ => rfl, fun _ _ => rfl⟩

/-- Claim C10: the Percent constructor panics on every string that does not
parse as a u8 (empty, non-numeric, or value 256 and above), and only a
string parsing to 0-255 reaches the range check, where values above 100
yield the InvalidInput error. -/
theorem c10_percent_new_partiality (s : String) :
    (parseU8 s.data = none → Percent.new s = .panicked ("parse failure")) ∧
    (∀ v, parseU8 s.data = some v →
      Percent.new s = if v ≤ 100 then .ok ⟨v⟩ else .err ("Invalid Input")) := by
  constructor
  · intro h
    simp [Percent.new, h]
  · intro v h
    simp [Percent.new, h]

/-- Claim C10 witness: the panic on the non-numeric string abc, through the
theorem itself. -/
theorem c10_percent_new_partiality_witness :
    parseU8 ("abc" : String).data = none ∧ Percent.new ("abc") = .panicked ("parse failure") :=
  ⟨by decide, (c10_percent_new_partiality ("abc")).1 (by decide)⟩
